import Mathlib

/-!
Verification of the Crafting-Tree-Viewer repository (src/wikiScraper.py and
src/databasemanager.py) against its natural-language specification.

The Python code is shallowly embedded: the ArangoDB-backed store is an explicit
state value (`DBState`), each database method becomes a state-passing function
returning the new state together with an optional raised error, and BeautifulSoup
parse results are explicit input structures carrying exactly the fields the code
reads.  Python exceptions (IndexError, KeyError, TypeError, unique-constraint
violations reported by the store) are modelled as `PyErr` results; a raised error
leaves the persisted state as it was at the moment of the raise, which matches the
store semantics (a rejected insert writes nothing).

Modelling conventions, noted where they matter:
* `db.aql.execute(query)` returns a python-arango Cursor.  A Cursor is never
  `None`, so `if cursor is None:` is always false.  Iterating a Cursor, or
  reading `cursor.batch()`, yields the query results, modelled as the list of
  matching records.  But the Cursor class defines no `__bool__` and its
  `__len__` raises CursorCountError when the query ran without count enabled
  (as every query in this code does), so Python truth-testing a cursor
  (`if item:`) raises; it defines no `__getitem__` either, so subscripting
  one is a TypeError.
* `collection.has(...)` and `collection.get(...)` take a document ID, key or
  body; a body must contain an `_id` or `_key` field, and the filter dicts
  this code passes have neither, so these calls raise DocumentParseError.
* Record values are stored as-is; JSON wire-format encoding is out of scope
  (the persisted record shapes are logical, not wire format).
* Fields of `Item` objects that the constructor fills by further network
  scraping (`recipes`, `obtainedFrom`, image retrieval) are abstracted to their
  initial empty values when the code constructs a fresh `Item` from a link.
-/

/-- Python exceptions / store errors that the embedded code can raise. -/
inductive PyErr : Type where
  | uniqueConstraint : PyErr
  | indexError : PyErr
  | typeError : PyErr
  | keyError : PyErr
  | cursorCountError : PyErr
  | documentParseError : PyErr
deriving DecidableEq

/-- A dynamically typed Python value as it appears in `ingredientQuantities`
    (the scraper appends cell text, i.e. strings; callers may pass integers). -/
inductive PyVal : Type where
  | pyInt : Int → PyVal
  | pyStr : String → PyVal
deriving DecidableEq

mutual

/-- wikiScraper.Item: fields `name`, `wikiLink`, `imageLink`, `recipes`,
    `obtainedFrom`, `source`, in the order they are set in `Item.__init__`. -/
inductive ItemObj : Type where
  | mk : String → String → Option String → List RecipeObj → List String → String → ItemObj

/-- wikiScraper.Recipe: fields `item`, `crafting_station`, `ingredients`,
    `ingredientQuantities`, `url`, in the order set in `Recipe.__init__`. -/
inductive RecipeObj : Type where
  | mk : ItemObj → String → List ItemObj → List PyVal → String → RecipeObj

end

def ItemObj.name : ItemObj → String
  | .mk n _ _ _ _ _ => n

def ItemObj.wikiLink : ItemObj → String
  | .mk _ w _ _ _ _ => w

def ItemObj.imageLink : ItemObj → Option String
  | .mk _ _ i _ _ _ => i

def ItemObj.recipes : ItemObj → List RecipeObj
  | .mk _ _ _ r _ _ => r

def ItemObj.obtainedFrom : ItemObj → List String
  | .mk _ _ _ _ o _ => o

def ItemObj.source : ItemObj → String
  | .mk _ _ _ _ _ s => s

def RecipeObj.item : RecipeObj → ItemObj
  | .mk i _ _ _ _ => i

def RecipeObj.crafting_station : RecipeObj → String
  | .mk _ c _ _ _ => c

def RecipeObj.ingredients : RecipeObj → List ItemObj
  | .mk _ _ i _ _ => i

def RecipeObj.ingredientQuantities : RecipeObj → List PyVal
  | .mk _ _ _ q _ => q

def RecipeObj.url : RecipeObj → String
  | .mk _ _ _ _ u => u

/-- A document in the `items` collection: the autoincrement `_key` assigned by
    the store (the collection is created with `key_generator='autoincrement'`)
    together with the inserted record. -/
structure ItemRec : Type where
  key : Nat
  doc : ItemObj

/-- A document in the `recipes` collection, carrying the two fields the code
    filters on (`item`, i.e. a stored item `_id`, and `crafting_station`).
    Nothing in the code ever inserts into this collection. -/
structure RecipeRec : Type where
  itemId : String
  crafting_station : String

/-- A document in the `edges` collection (`_from` / `_to`).  The unique hash
    index added in `DatabaseManager.__init__` is on this pair. -/
structure EdgeRec : Type where
  fromId : String
  toId : String
deriving DecidableEq

/-- The persistent state managed by `DatabaseManager`: the three collections
    and the next autoincrement key for `items`. -/
structure DBState : Type where
  items : List ItemRec
  recipes : List RecipeRec
  edges : List EdgeRec
  nextKey : Nat

/-- ArangoDB `_id` of a stored item document: `'items/' + _key`. -/
def itemDocId (r : ItemRec) : String := "items/" ++ toString r.key

/-- The store-level insert into `items`: the unique hash index on `name`
    (added in `DatabaseManager.__init__`) rejects a second document with an
    already-present name; a rejected insert writes nothing. -/
def insertItemUnique (s : DBState) (item : ItemObj) : DBState × Option PyErr :=
  if s.items.any (fun r => r.doc.name == item.name) then
    (s, some PyErr.uniqueConstraint)
  else
    ({ s with items := s.items ++ [{ key := s.nextKey, doc := item }],
              nextKey := s.nextKey + 1 }, none)

/-- DatabaseManager.add_item.  The guard
    `if self.db.aql.execute(...) is None:` compares a cursor object with
    `None`; a cursor is never `None`, so the `print('Item already in
    database.'); return` branch is unreachable and the method always falls
    through to `self.items.insert(item_dict)`.  (The in-place conversion of
    `item_dict['recipes']` to dicts is the identity on the record value.) -/
def add_item (s : DBState) (item : ItemObj) : DBState × Option PyErr :=
  let cursorIsNone := false
  if cursorIsNone then
    (s, none)
  else
    insertItemUnique s item

/-- DatabaseManager.add_items: `for item in items: self.add_item(item)`;
    an exception raised by `add_item` propagates and aborts the loop. -/
def add_items (s : DBState) (batch : List ItemObj) : DBState × Option PyErr :=
  match batch with
  | [] => (s, none)
  | i :: rest =>
    match add_item s i with
    | (s1, none) => add_items s1 rest
    | (s1, some e) => (s1, some e)

/-- DatabaseManager.add_recipe.  `item = self.db.aql.execute(...)` binds a
    python-arango Cursor; the query runs without count enabled, the Cursor
    defines no `__bool__`, and its `__len__` raises CursorCountError when the
    count is unknown — so the truth test `if item:` raises on every call.
    The method reaches neither branch: it never rebinds the output item to a
    stored record, never inserts it, and leaves the state unchanged. -/
def add_recipe (s : DBState) (recipe : RecipeObj) : DBState × Option PyErr :=
  (s, some PyErr.cursorCountError)

/-- The branch structure of DatabaseManager.add_recipe past the raising truth
    test (lines 130-133), under the driver semantics the code intends:
    cursor truthiness as non-emptiness of the result list and cursor indexing
    as list indexing.  The real call raises before reaching it (see
    `add_recipe`); kept, like the dead Calamity row loop, to show that even
    under the intended semantics a truthy result only rebinds the local
    `recipe_dict['item']` (no store write) and an empty one runs
    `self.add_item(recipe_dict['item'])` — the `recipes` collection is
    untouched either way. -/
def add_recipe_resolved (s : DBState) (recipe : RecipeObj) : DBState × Option PyErr :=
  let found := s.items.filter (fun r => r.doc.name == recipe.item.name)
  if found.isEmpty then
    add_item s recipe.item
  else
    (s, none)

/-- DatabaseManager.add_edge.  Its first statement,
    `self.edges.has({'_from': ..., '_to': ...})`, passes a filter dict with
    no `_id` or `_key` field; python-arango requires one and raises
    DocumentParseError before anything else in the method runs (the later
    `items.has` / `items.get` / `recipes.has` calls pass the same kind of
    filter dict and would fail the same way).  The state is unchanged — and
    no statement anywhere in the method body inserts an edge in any case. -/
def add_edge (s : DBState) (item : ItemObj) (recipe : RecipeObj) : DBState × Option PyErr :=
  (s, some PyErr.documentParseError)

/-- The body of DatabaseManager.add_edge (lines 154-170) under the driver
    semantics the code intends — `has`/`get` as lookup by the given fields,
    cursor reads as result lists.  The real call raises at its first `has`
    (see `add_edge`); kept to show that even under the intended semantics no
    branch inserts into the `edges` collection: an existing `(_from, _to)`
    edge returns early; otherwise the item is fetched (or inserted via
    `add_item`, after which `item['_id']` subscripts the original `Item`
    object and raises TypeError); then the recipe is looked up by
    `(item _id, crafting_station)` and, when absent, the recipe path runs —
    and none of that writes an edge. -/
def add_edge_resolved (s : DBState) (item : ItemObj) (recipe : RecipeObj) :
    DBState × Option PyErr :=
  if s.edges.any (fun e =>
      e.fromId == "items/" ++ item.name && e.toId == "recipes/" ++ recipe.item.name) then
    (s, none)
  else if s.items.any (fun r => r.doc.name == item.name) then
    match (s.items.filter (fun r => r.doc.name == item.name)).head? with
    | none => (s, some PyErr.indexError)
    | some stored =>
      if s.recipes.any (fun rr =>
          rr.itemId == itemDocId stored && rr.crafting_station == recipe.crafting_station) then
        (s, none)
      else
        add_recipe_resolved s recipe
  else
    match add_item s item with
    | (s1, some e) => (s1, some e)
    | (s1, none) => (s1, some PyErr.typeError)

/-- DatabaseManager.get_item.  The AQL query (`LIMIT 1`) returns at most one
    record; `cursor.batch()[0]` indexes the batch and raises IndexError when it
    is empty, so the subsequent `if not item_data:` miss branch is unreachable
    (a stored document is a non-empty, hence truthy, dict).  On a hit the
    method rebuilds `Item(name, wikiLink, imageLink)` (constructor network
    scraping abstracted to empty `recipes` / `obtainedFrom`). -/
def get_item (s : DBState) (name : String) : Except PyErr ItemObj :=
  let batch := (s.items.filter (fun r => r.doc.name == name)).take 1
  match batch.head? with
  | none => Except.error PyErr.indexError
  | some r =>
    Except.ok (ItemObj.mk r.doc.name r.doc.wikiLink r.doc.imageLink [] [] "Vanilla")

/-- DatabaseManager.get_ingredients.  The AQL query
    `FOR item IN items FILTER item.name == @name FOR recipe IN item.recipes
    RETURN recipe.ingredients` yields, per matching item and per embedded
    recipe in order, that recipe's ingredient list (a list per recipe, not a
    flattened pair sequence, and without quantities). -/
def get_ingredients (s : DBState) (name : String) : List (List ItemObj) :=
  (s.items.filter (fun r => r.doc.name == name)).flatMap
    (fun r => r.doc.recipes.map (fun rec => rec.ingredients))

/-- Modelled from the spec: the claimed behaviour of `getIngredients` — an
    ordered sequence of (Item, quantity) pairs, flattened across all of the
    item's recipes, recipe order then ingredient order within recipe.  Stated
    only for comparison with `get_ingredients`, which is what the code does. -/
def get_ingredients_claimed (s : DBState) (name : String) : List (ItemObj × PyVal) :=
  (s.items.filter (fun r => r.doc.name == name)).flatMap
    (fun r => r.doc.recipes.flatMap
      (fun rec => rec.ingredients.zip rec.ingredientQuantities))

/-!  The scraper side (src/wikiScraper.py).  Parsed HTML is passed in as
explicit structures holding exactly what the code reads from the soup. -/

/-- The whitespace class of regular-expression patterns over Python 3
    strings (the characters that `\s` matches). -/
def isPyWhitespace (c : Char) : Bool :=
  c == ' ' || c == '\t' || c == '\n' || c == '\r' || c == '\x0b' || c == '\x0c' ||
  c == '\x1c' || c == '\x1d' || c == '\x1e' || c == '\x1f' || c == '\x85' ||
  c == '\xa0' || c == '\u1680' || ('\u2000' ≤ c && c ≤ '\u200a') ||
  c == '\u2028' || c == '\u2029' || c == '\u202f' || c == '\u205f' || c == '\u3000'

/-- wikiScraper.underscore_to_space: `re.sub('_', ' ', string)` — every
    underscore becomes a space. -/
def underscore_to_space (s : String) : String :=
  String.mk (s.data.map (fun c => if c = '_' then ' ' else c))

/-- wikiScraper.space_to_underscore: `re.sub('\s', '_', string)` — every
    whitespace character becomes an underscore. -/
def space_to_underscore (s : String) : String :=
  String.mk (s.data.map (fun c => if isPyWhitespace c then '_' else c))

/-- A link tag as the scraper reads it: its `title` and `href` attributes. -/
structure SoupLink : Type where
  title : String
  href : String

/-- A table cell as read by `Recipe.retrieve_ingredients`: the links it holds. -/
structure SoupCell : Type where
  links : List SoupLink

/-- The recipes table of a vanilla item page as `Recipe.retrieve_ingredients`
    reads it: `int(table['data-totalrows'])`, `table.find_all('td')` and the
    number of rows of `table.find_all('tr')`. -/
structure VanillaRecipeTable : Type where
  totalrows : Int
  cells : List SoupCell
  numRows : Nat

/-- `Item(name, link)` as constructed while scraping: the constructor fills
    `recipes` / `obtainedFrom` by further network scraping, abstracted to
    their initial empty values. -/
def Item.ofScrape (name link : String) : ItemObj :=
  ItemObj.mk name link none [] [] "Vanilla"

/-- wikiScraper.Recipe.retrieve_ingredients.  A missing table returns after a
    warning; with `data-totalrows` equal to 1 the links of `cells[1]` are
    appended to `self.ingredients` as fresh `Item` objects (nothing is ever
    appended to `self.ingredientQuantities`); with more than one row the dead
    expression `table_rows[0][1]` subscripts a soup Tag with an integer, which
    looks the integer up among the string-keyed attributes and raises KeyError
    (IndexError first when the table has no rows at all). -/
def Recipe.retrieve_ingredients (r : RecipeObj) (table : Option VanillaRecipeTable) :
    Except PyErr RecipeObj :=
  match table with
  | none => Except.ok r
  | some t =>
    if t.totalrows = 1 then
      match t.cells.get? 1 with
      | none => Except.error PyErr.indexError
      | some c =>
        Except.ok (RecipeObj.mk r.item r.crafting_station
          (r.ingredients ++ c.links.map (fun l => Item.ofScrape l.title (r.url ++ l.href)))
          r.ingredientQuantities r.url)
    else if t.totalrows > 1 then
      if t.numRows = 0 then Except.error PyErr.indexError
      else Except.error PyErr.keyError
    else Except.ok r

/-- A table cell as `CalamityRecipe.retrieve_ingredients` reads one: image
    `src` attributes, link tags, and the cell text. -/
structure CalCell : Type where
  imgSrcs : List String
  links : List SoupLink
  text : String

/-- A row of the Calamity recipes table: `row.find_all('td')` plus whether
    `'<th>' in str(cells)` holds for the row. -/
structure CalRow : Type where
  cells : List CalCell
  rawHasTh : Bool

/-- The Calamity recipes table: `table.find_all('tr')`. -/
structure CalTable : Type where
  rows : List CalRow

/-- The body of the row loop of `CalamityRecipe.retrieve_ingredients`
    (lines 323-339): header and empty rows are skipped; otherwise
    `cells[0].find('img')['src']` (TypeError when the cell has no image),
    `cells[1].find('a')['title']` and `cells[2].text` are read (IndexError on
    short rows) and one `Item` plus the raw quantity text — a string, with no
    integer conversion and no positivity check — are appended. -/
def calamityIngredientStep (r : RecipeObj) (row : CalRow) : Except PyErr RecipeObj :=
  if row.rawHasTh then Except.ok r
  else if row.cells.length = 0 then Except.ok r
  else
    match row.cells.get? 0 with
    | none => Except.error PyErr.indexError
    | some c0 =>
      match c0.imgSrcs.head? with
      | none => Except.error PyErr.typeError
      | some src =>
        let imageLink := r.url ++ src
        match row.cells.get? 1 with
        | none => Except.error PyErr.indexError
        | some c1 =>
          match c1.links.head? with
          | none => Except.error PyErr.typeError
          | some l =>
            let name := l.title
            match row.cells.get? 2 with
            | none => Except.error PyErr.indexError
            | some c2 =>
              Except.ok (RecipeObj.mk r.item r.crafting_station
                (r.ingredients ++ [ItemObj.mk name (r.url ++ name) (some imageLink) [] [] "Vanilla"])
                (r.ingredientQuantities ++ [PyVal.pyStr c2.text]) r.url)

/-- wikiScraper.CalamityRecipe.retrieve_ingredients.  A missing table returns
    early; otherwise line 321 runs
    `space_to_underscore(table_rows[1][0].find('a')['title'])`, and
    `table_rows[1][0]` subscripts a soup Tag with the integer 0, which raises
    KeyError (IndexError first when the table has fewer than two rows), so the
    row loop below it never executes. -/
def CalamityRecipe.retrieve_ingredients (r : RecipeObj) (table : Option CalTable) :
    Except PyErr RecipeObj :=
  match table with
  | none => Except.ok r
  | some t =>
    if t.rows.length < 2 then Except.error PyErr.indexError
    else Except.error PyErr.keyError

/-- Python str.lower on the characters involved here (ASCII). -/
def pyLower (s : String) : String :=
  String.mk (s.data.map Char.toLower)

/-- Whether `pat` starts `s`, over character lists. -/
def startsWithChars : List Char → List Char → Bool
  | [], _ => true
  | _ :: _, [] => false
  | p :: ps, c :: cs => p == c && startsWithChars ps cs

/-- Whether `pat` occurs contiguously inside `s`, over character lists. -/
def hasSubstrChars (pat : List Char) : List Char → Bool
  | [] => startsWithChars pat []
  | c :: cs => startsWithChars pat (c :: cs) || hasSubstrChars pat cs

/-- Python `'chair' in links[0]['title'].lower()`: substring containment. -/
def containsChair (t : String) : Bool :=
  hasSubstrChars "chair".data (pyLower t).data

/-- Python list indexing `links[i]['title']`: IndexError past the end. -/
def titleAt (links : List SoupLink) (i : Nat) : Except PyErr String :=
  match links.get? i with
  | none => Except.error PyErr.indexError
  | some l => Except.ok l.title

/-- One `links[0]['title'] == a and links[3]['title'] == b` condition of
    `Scraper.find_crafting_stations`: `and` short-circuits, so `links[3]` is
    only subscripted when the first comparison holds. -/
def pairMatches (links : List SoupLink) (a b : String) : Except PyErr Bool := do
  let t0 ← titleAt links 0
  if t0 = a then
    let t3 ← titleAt links 3
    pure (t3 = b)
  else
    pure false

/-- Python `links[0]['title'].split(' ')[1]` (IndexError when the title has no
    second space-separated part). -/
def secondWord (t : String) : Except PyErr String :=
  match (t.splitOn " ").get? 1 with
  | none => Except.error PyErr.indexError
  | some w => Except.ok w

/-- The two-image branch of `Scraper.find_crafting_stations` (lines 404-428):
    the fixed special-case table tried in order, then the chair check, then
    the `'Hardmode_' + links[0]['title'].split(' ')[1]` fallback. -/
def stationTwoImg (acc : List String) (links : List SoupLink) :
    Except PyErr (List String) := do
  if (← pairMatches links "Demon Altar" "Crimson Altar") then
    pure (acc ++ ["Altars"])
  else if (← pairMatches links "Furnace" "Hellforge") then
    pure (acc ++ ["Furnace", "Hellforge"])
  else if (← pairMatches links "Placed Bottle" "Alchemy Table") then
    pure (acc ++ ["Alchemy_Table"])
  else if (← pairMatches links "Cooking Pot" "Cauldron") then
    pure (acc ++ ["Cooking_Pot"])
  else if (← pairMatches links "Iron Anvil" "Lead Anvil") then
    pure (acc ++ ["Pre-Hardmode_Anvils"])
  else
    let t0 ← titleAt links 0
    if containsChair t0 then
      pure (acc ++ [space_to_underscore t0])
    else
      let w ← secondWord t0
      pure (acc ++ ["Hardmode_" ++ w])

/-- The first `td` cell of a row as `Scraper.find_crafting_stations` reads it:
    image count, cell text and the link tags. -/
structure StationCell : Type where
  imgCount : Nat
  text : String
  links : List SoupLink

/-- The body of the row loop of `Scraper.find_crafting_stations`: a row with
    no `td` is skipped; no image appends `By_Hand` only for the `By Hand`
    cell; one image appends the underscored first link title (subscripting
    `cell.find('a')['title']` raises TypeError when there is no link, making
    the `if link is None` check below it dead); two images dispatch to the
    special-case chain; more images append nothing. -/
def stationStep (acc : List String) (cell : Option StationCell) :
    Except PyErr (List String) :=
  match cell with
  | none => Except.ok acc
  | some c =>
    if c.imgCount = 0 then
      if c.text = "By Hand" then Except.ok (acc ++ ["By_Hand"]) else Except.ok acc
    else if c.imgCount = 1 then
      match c.links.head? with
      | none => Except.error PyErr.typeError
      | some l => Except.ok (acc ++ [space_to_underscore l.title])
    else if c.imgCount = 2 then
      stationTwoImg acc c.links
    else
      Except.ok acc

/-- Scraper.find_crafting_stations over the rows of the crafting-stations
    tables (each row abstracted to its first `td`, or `None`), accumulating
    into the `crafting_stations` list the loop builds. -/
def find_crafting_stations (rows : List (Option StationCell)) :
    Except PyErr (List String) :=
  rows.foldlM stationStep []

/-! Helper lemmas about `add_item` / `add_items`. -/

theorem add_item_of_present (s : DBState) (item : ItemObj)
    (h : s.items.any (fun r => r.doc.name == item.name) = true) :
    add_item s item = (s, some PyErr.uniqueConstraint) := by
  simp [add_item, insertItemUnique, h]

theorem add_item_of_absent (s : DBState) (item : ItemObj)
    (h : s.items.any (fun r => r.doc.name == item.name) = false) :
    add_item s item =
      ({ s with items := s.items ++ [{ key := s.nextKey, doc := item }],
                nextKey := s.nextKey + 1 }, none) := by
  simp [add_item, insertItemUnique, h]

theorem add_item_error_state (s : DBState) (item : ItemObj) (s1 : DBState) (e : PyErr)
    (h : add_item s item = (s1, some e)) : s1 = s := by
  by_cases hc : s.items.any (fun r => r.doc.name == item.name) = true
  · rw [add_item_of_present s item hc] at h
    injection h with h1 h2
    exact h1.symm
  · rw [add_item_of_absent s item (by simpa using hc)] at h
    simp at h

theorem add_item_preserves_any (s : DBState) (item : ItemObj) (p : ItemRec → Bool)
    (h : s.items.any p = true) : ((add_item s item).1).items.any p = true := by
  by_cases hc : s.items.any (fun r => r.doc.name == item.name) = true
  · rw [add_item_of_present s item hc]
    exact h
  · rw [add_item_of_absent s item (by simpa using hc)]
    simp only [List.any_append]
    simp [h]

theorem add_item_name_present (s : DBState) (item : ItemObj) :
    ((add_item s item).1).items.any (fun r => r.doc.name == item.name) = true := by
  by_cases hc : s.items.any (fun r => r.doc.name == item.name) = true
  · rw [add_item_of_present s item hc]
    exact hc
  · rw [add_item_of_absent s item (by simpa using hc)]
    simp [List.any_append]

theorem add_items_preserves_any (batch : List ItemObj) (s : DBState) (p : ItemRec → Bool)
    (h : s.items.any p = true) : ((add_items s batch).1).items.any p = true := by
  induction batch generalizing s with
  | nil => exact h
  | cons i rest ih =>
    rcases hadd : add_item s i with ⟨s1, e⟩
    cases e with
    | none =>
      have h1 : s1.items.any p = true := by
        have := add_item_preserves_any s i p h
        rw [hadd] at this
        exact this
      simp only [add_items, hadd]
      exact ih s1 h1
    | some err =>
      have hs : s1 = s := add_item_error_state s i s1 err hadd
      simp only [add_items, hadd]
      exact hs ▸ h

/-- C1: applying the same batch of Items twice via add_items leaves the
    persisted graph identical (the whole database state, hence item-node
    count and attributes) to applying it once, and for every item already
    present under its name a second add_item call inserts no second record
    and changes nothing: the unique hash index on `name` rejects the
    re-insert and the rejected insert writes nothing (the attempt surfaces
    as a raised unique-constraint error, not as a silent skip — the
    presence check inside add_item itself is unreachable). -/
theorem add_items_idempotent_c1 (s : DBState) (batch : List ItemObj) :
    (add_items (add_items s batch).1 batch).1 = (add_items s batch).1 ∧
    (∀ item : ItemObj, s.items.any (fun r => r.doc.name == item.name) = true →
      (add_item s item).1 = s) := by
  constructor
  · cases batch with
    | nil => rfl
    | cons i rest =>
      rcases hadd : add_item s i with ⟨s1, e⟩
      cases e with
      | none =>
        have hpres1 : s1.items.any (fun r => r.doc.name == i.name) = true := by
          have := add_item_name_present s i
          rw [hadd] at this
          exact this
        rcases hrest : add_items s1 rest with ⟨s2, e2⟩
        have hpres2 : s2.items.any (fun r => r.doc.name == i.name) = true := by
          have := add_items_preserves_any rest s1 _ hpres1
          rw [hrest] at this
          exact this
        have hfirst : add_items s (i :: rest) = (s2, e2) := by
          simp only [add_items, hadd, hrest]
        rw [hfirst]
        simp only [add_items, add_item_of_present s2 i hpres2]
      | some err =>
        have hs : s1 = s := add_item_error_state s i s1 err hadd
        have hfirst : add_items s (i :: rest) = (s, some err) := by
          simp only [add_items, hadd, hs]
        rw [hfirst]
        show (add_items s (i :: rest)).1 = s
        rw [hfirst]
  · intro item h
    rw [add_item_of_present s item h]

/-- A concrete item with no recipes. -/
def woodItem : ItemObj :=
  ItemObj.mk "Wood" "https://terraria.wiki.gg/wiki/Wood" none [] [] "Vanilla"

/-- A second concrete item with a distinct name. -/
def stoneItem : ItemObj :=
  ItemObj.mk "Stone Block" "https://terraria.wiki.gg/wiki/Stone_Block" none [] [] "Vanilla"

/-- A database state already holding `woodItem`. -/
def dbWood : DBState :=
  { items := [{ key := 0, doc := woodItem }], recipes := [], edges := [], nextKey := 1 }

/-- Witness for C1 at a concrete state and batch. -/
theorem add_items_idempotent_c1_witness :
    (add_items (add_items dbWood [woodItem, stoneItem]).1 [woodItem, stoneItem]).1 =
      (add_items dbWood [woodItem, stoneItem]).1 ∧
    (add_item dbWood woodItem).1 = dbWood :=
  ⟨(add_items_idempotent_c1 dbWood [woodItem, stoneItem]).1,
   (add_items_idempotent_c1 dbWood [woodItem, stoneItem]).2 woodItem (by decide)⟩

theorem any_eq_false_of_filter_isEmpty (l : List ItemRec) (p : ItemRec → Bool)
    (h : (l.filter p).isEmpty = true) : l.any p = false := by
  rw [List.isEmpty_iff] at h
  rw [List.filter_eq_nil_iff] at h
  simp only [List.any_eq_false]
  exact h

/-- Even the resolved-semantics remainder of add_recipe never writes the
    recipes collection: a found output item is only rebound locally and an
    absent one is inserted into the items collection. -/
theorem add_recipe_resolved_frame (s : DBState) (recipe : RecipeObj) :
    ((add_recipe_resolved s recipe).1).recipes = s.recipes ∧
    ((add_recipe_resolved s recipe).1).items =
      (if (s.items.filter (fun r => r.doc.name == recipe.item.name)).isEmpty then
        s.items ++ [{ key := s.nextKey, doc := recipe.item }] else s.items) := by
  by_cases h : (s.items.filter (fun r => r.doc.name == recipe.item.name)).isEmpty = true
  · have habs : s.items.any (fun r => r.doc.name == recipe.item.name) = false :=
      any_eq_false_of_filter_isEmpty _ _ h
    simp only [add_recipe_resolved, h, if_true]
    rw [add_item_of_absent s recipe.item habs]
    exact ⟨rfl, rfl⟩
  · simp only [add_recipe_resolved, h, if_false]
    simp only [Bool.not_eq_true] at h
    simp [h]

theorem add_item_edges (s : DBState) (item : ItemObj) :
    ((add_item s item).1).edges = s.edges := by
  by_cases hc : s.items.any (fun r => r.doc.name == item.name) = true
  · rw [add_item_of_present s item hc]
  · rw [add_item_of_absent s item (by simpa using hc)]

theorem add_recipe_resolved_edges (s : DBState) (recipe : RecipeObj) :
    ((add_recipe_resolved s recipe).1).edges = s.edges := by
  by_cases h : (s.items.filter (fun r => r.doc.name == recipe.item.name)).isEmpty = true
  · simp only [add_recipe_resolved, h, if_true]
    exact add_item_edges s recipe.item
  · simp [add_recipe_resolved, h]

theorem add_edge_resolved_edges (s : DBState) (item : ItemObj) (recipe : RecipeObj) :
    ((add_edge_resolved s item recipe).1).edges = s.edges := by
  unfold add_edge_resolved
  split
  · rfl
  · split
    · split
      · rfl
      · split
        · rfl
        · exact add_recipe_resolved_edges s recipe
    · split
      next s1 e heq =>
        have := add_item_edges s item
        rw [heq] at this
        exact this
      next s1 heq =>
        have := add_item_edges s item
        rw [heq] at this
        exact this

/-- A concrete output item for a recipe. -/
def woodSwordItem : ItemObj :=
  ItemObj.mk "Wood Sword" "https://terraria.wiki.gg/wiki/Wood_Sword" none [] [] "Vanilla"

/-- A concrete recipe crafting the wood sword from wood. -/
def woodSwordRecipe : RecipeObj :=
  RecipeObj.mk woodSwordItem "Work_Bench" [woodItem] [PyVal.pyStr "7"] "https://terraria.wiki.gg"

/-- A database state holding both endpoint items, no recipes, no edges. -/
def dbC2 : DBState :=
  { items := [{ key := 0, doc := woodItem }, { key := 1, doc := woodSwordItem }],
    recipes := [], edges := [], nextKey := 2 }

/-- C2: refuted as stated — add_edge never inserts an edge.  On a state with
    no edge for the (from, to) pair and both endpoint items present, the
    call leaves the whole state unchanged (it raises DocumentParseError at
    its first filter-dict `has` check), so the edges collection is still
    empty where the claim requires exactly one edge with that pair
    afterwards.  In general the edges collection is unchanged by every
    add_edge call, and this is robust under every reading of the driver's
    has/get semantics: even the resolved-semantics body contains no branch
    that performs an edge insert. -/
theorem add_edge_inserts_no_edge_c2 :
    add_edge dbC2 woodItem woodSwordRecipe = (dbC2, some PyErr.documentParseError) ∧
    dbC2.edges = [] ∧
    (∀ (s : DBState) (item : ItemObj) (recipe : RecipeObj),
      ((add_edge s item recipe).1).edges = s.edges) ∧
    (∀ (s : DBState) (item : ItemObj) (recipe : RecipeObj),
      ((add_edge_resolved s item recipe).1).edges = s.edges) :=
  ⟨rfl, rfl, fun _ _ _ => rfl, add_edge_resolved_edges⟩

/-- The empty database state. -/
def dbEmpty : DBState := { items := [], recipes := [], edges := [], nextKey := 0 }

/-- C4: the code contradicts the claim on a query miss — for a name with no
    persisted item, get_item indexes the empty result batch
    (`cursor.batch()[0]`) and raises IndexError instead of returning the
    absence value its own unreachable `if not item_data` branch intends; on
    a hit it does return the corresponding item. -/
theorem get_item_miss_raises_c4 :
    get_item dbEmpty "Zenith" = Except.error PyErr.indexError ∧
    get_item dbWood "Wood" =
      Except.ok (ItemObj.mk "Wood" "https://terraria.wiki.gg/wiki/Wood" none [] [] "Vanilla") :=
  ⟨rfl, rfl⟩

/-- A second concrete ingredient item. -/
def ironBarItem : ItemObj :=
  ItemObj.mk "Iron Bar" "https://terraria.wiki.gg/wiki/Iron_Bar" none [] [] "Vanilla"

/-- A two-ingredient recipe for the wood sword. -/
def swordRecipeTwo : RecipeObj :=
  RecipeObj.mk woodSwordItem "Work_Bench" [woodItem, ironBarItem]
    [PyVal.pyStr "7", PyVal.pyStr "2"] "https://terraria.wiki.gg"

/-- The wood sword item carrying its two-ingredient recipe. -/
def swordItemWithRecipe : ItemObj :=
  ItemObj.mk "Wood Sword" "https://terraria.wiki.gg/wiki/Wood_Sword" none
    [swordRecipeTwo] [] "Vanilla"

/-- A database state holding the recipe-carrying wood sword. -/
def dbC3 : DBState :=
  { items := [{ key := 0, doc := swordItemWithRecipe }], recipes := [], edges := [], nextKey := 1 }

/-- C3 counterexample: for an item with one recipe of two ingredients, the
    sequence get_ingredients returns has one element (that recipe's whole
    ingredient list), while the claimed flattened (Item, quantity) sequence
    has two — so get_ingredients does not return the flattened pair
    sequence the claim describes. -/
theorem get_ingredients_not_flat_c3_counterexample :
    (get_ingredients dbC3 "Wood Sword").length = 1 ∧
    (get_ingredients_claimed dbC3 "Wood Sword").length = 2 ∧
    (1 : Nat) ≠ 2 :=
  ⟨rfl, rfl, by decide⟩

/-- C3 amended: get_ingredients(n) returns one entry per recipe of the item
    named n, in recipe order, each entry being that recipe's full ordered
    ingredient list; quantities are not included and the per-recipe lists
    are not flattened.  Stated for an item inserted into a state not already
    holding its name. -/
theorem get_ingredients_per_recipe_c3 (s : DBState) (item : ItemObj)
    (habs : s.items.any (fun r => r.doc.name == item.name) = false) :
    get_ingredients ((add_item s item).1) item.name =
      item.recipes.map (fun rec => rec.ingredients) := by
  rw [add_item_of_absent s item habs]
  simp only [get_ingredients]
  rw [List.filter_append]
  have h1 : s.items.filter (fun r => r.doc.name == item.name) = [] := by
    rw [List.filter_eq_nil_iff]
    intro a ha
    have h2 := List.any_eq_false.mp habs a ha
    simpa using h2
  rw [h1]
  simp

/-- Witness for C3 amended at a concrete state and item. -/
theorem get_ingredients_per_recipe_c3_witness :
    get_ingredients ((add_item dbEmpty swordItemWithRecipe).1) swordItemWithRecipe.name =
      [[woodItem, ironBarItem]] :=
  (get_ingredients_per_recipe_c3 dbEmpty swordItemWithRecipe (by decide)).trans rfl

/-- A recipe whose output item ("Wood") also appears in its own ingredient
    list — the cycle-of-one the spec says is rejected. -/
def selfLoopRecipe : RecipeObj :=
  RecipeObj.mk woodItem "Work_Bench" [woodItem] [PyVal.pyStr "1"] "https://terraria.wiki.gg"

/-- The wood item carrying the self-referential recipe. -/
def selfLoopItem : ItemObj :=
  ItemObj.mk "Wood" "https://terraria.wiki.gg/wiki/Wood" none [selfLoopRecipe] [] "Vanilla"

/-- C5 counterexample: persisting an item whose recipe lists its own output
    among its ingredients succeeds with no error of any kind — no
    CyclicRecipe rejection happens, and the persisted recipe's output name
    ("Wood") appears among its persisted ingredient names (["Wood"]),
    violating the claimed no-self-loop invariant. -/
theorem self_loop_persisted_c5_counterexample :
    (add_item dbEmpty selfLoopItem).2 = none ∧
    ((add_item dbEmpty selfLoopItem).1).items.map (fun r => r.doc.name) = ["Wood"] ∧
    ((add_item dbEmpty selfLoopItem).1).items.map
        (fun r => r.doc.recipes.map
          (fun rec => (rec.item.name, rec.ingredients.map ItemObj.name))) =
      [[("Wood", ["Wood"])]] :=
  ⟨rfl, rfl, rfl⟩

/-- C5 amended: graph construction performs no self-loop detection — for any
    item whose name is not yet stored, add_item succeeds (returns no error,
    so in particular never a CyclicRecipe failure) and persists the item with
    its recipe list verbatim, whatever the recipes' ingredient lists
    contain. -/
theorem add_item_no_cycle_check_c5 (s : DBState) (item : ItemObj)
    (habs : s.items.any (fun r => r.doc.name == item.name) = false) :
    (add_item s item).2 = none ∧
    ((add_item s item).1).items = s.items ++ [{ key := s.nextKey, doc := item }] := by
  rw [add_item_of_absent s item habs]
  exact ⟨rfl, rfl⟩

/-- Witness for C5 amended at the self-referential concrete item. -/
theorem add_item_no_cycle_check_c5_witness :
    (add_item dbEmpty selfLoopItem).2 = none ∧
    ((add_item dbEmpty selfLoopItem).1).items =
      [{ key := 0, doc := selfLoopItem }] :=
  add_item_no_cycle_check_c5 dbEmpty selfLoopItem (by decide)

/-- A one-recipe vanilla table whose ingredient cell has a single Wood link. -/
def c6Table : VanillaRecipeTable :=
  { totalrows := 1,
    cells := [{ links := [] }, { links := [{ title := "Wood", href := "/wiki/Wood" }] }],
    numRows := 3 }

/-- A fresh vanilla recipe as `Recipe.__init__` builds one before retrieval:
    empty ingredient and quantity lists, vanilla wiki url. -/
def c6Recipe : RecipeObj :=
  RecipeObj.mk woodSwordItem "" [] [] "https://terraria.wiki.gg"

/-- C6: the code contradicts the claim — Recipe.retrieve_ingredients appends
    the scraped ingredient Items but never appends to ingredientQuantities,
    so after retrieving a one-row recipe table with one ingredient the two
    lists have lengths 1 and 0: not equal, and index 0 of the ingredient
    list has no corresponding quantity entry at all. -/
theorem vanilla_quantities_never_appended_c6 :
    (Recipe.retrieve_ingredients c6Recipe (some c6Table)).map
        (fun r => (r.ingredients.length, r.ingredientQuantities.length)) =
      Except.ok (1, 0) ∧
    (1 : Nat) ≠ 0 :=
  ⟨rfl, by decide⟩

/-- A Calamity ingredient row: image in the first cell, the ingredient link
    in the second, the quantity text "0" in the third. -/
def c8Row : CalRow :=
  { cells :=
      [{ imgSrcs := ["/images/Wood.png"], links := [], text := "" },
       { imgSrcs := [], links := [{ title := "Wood", href := "/wiki/Wood" }], text := "Wood" },
       { imgSrcs := [], links := [], text := "0" }],
    rawHasTh := false }

/-- A Calamity recipe table with a header row and the ingredient row. -/
def c8Table : CalTable :=
  { rows := [{ cells := [], rawHasTh := true }, c8Row] }

/-- A fresh Calamity recipe state before retrieval. -/
def c8Recipe : RecipeObj :=
  RecipeObj.mk woodSwordItem "" [] [] "https://calamitymod.wiki.gg"

/-- C8: the code contradicts the claim — CalamityRecipe.retrieve_ingredients
    cannot even reach the quantity-storing line (the crafting-station line
    subscripts a soup Tag with an integer and raises KeyError on any table
    with at least two rows), and the row-loop body it guards stores the raw
    quantity cell text as a string with no integer conversion and no
    positivity check: on a cell reading "0" the stored quantity is the
    string "0", which is not an integer at all, let alone one that is at
    least 1. -/
theorem calamity_quantity_not_integer_c8 :
    CalamityRecipe.retrieve_ingredients c8Recipe (some c8Table) =
      Except.error PyErr.keyError ∧
    (calamityIngredientStep c8Recipe c8Row).map (fun r => r.ingredientQuantities) =
      Except.ok [PyVal.pyStr "0"] ∧
    (∀ n : Int, PyVal.pyStr "0" ≠ PyVal.pyInt n) :=
  ⟨rfl, rfl, fun _ h => PyVal.noConfusion h⟩

/-- A crafting-station row whose cell has two images and exactly the two
    links "Demon Altar" and "Crimson Altar". -/
def c7TwoLinkCell : StationCell :=
  { imgCount := 2, text := "",
    links := [{ title := "Demon Altar", href := "/wiki/Demon_Altar" },
              { title := "Crimson Altar", href := "/wiki/Crimson_Altar" }] }

/-- C7 counterexample: on a row whose two links are titled "Demon Altar" and
    "Crimson Altar", find_crafting_stations does not normalize to "Altars" —
    the condition subscripts links[3], and with only two links the call
    raises IndexError, producing no station list at all. -/
theorem two_link_altar_raises_c7_counterexample :
    find_crafting_stations [some c7TwoLinkCell] = Except.error PyErr.indexError ∧
    (∀ out : List String,
      (Except.error PyErr.indexError : Except PyErr (List String)) ≠ Except.ok out) :=
  ⟨rfl, fun _ h => Except.noConfusion h⟩

/-- C7 amended: space-separated display text is underscore-joined
    ("Work Bench" becomes "Work_Bench"), and the Altars special case applies
    to a two-image row whose link list has "Demon Altar" at index 0 and
    "Crimson Altar" at index 3 (the wiki row carries an image link and a text
    link per station, so four links are required; a row with only the two
    title links raises IndexError instead). -/
theorem station_normalization_c7 (acc : List String) (c : StationCell)
    (h2 : c.imgCount = 2)
    (h0 : (c.links.get? 0).map SoupLink.title = some "Demon Altar")
    (h3 : (c.links.get? 3).map SoupLink.title = some "Crimson Altar") :
    stationStep acc (some c) = Except.ok (acc ++ ["Altars"]) ∧
    space_to_underscore "Work Bench" = "Work_Bench" := by
  obtain ⟨l0, hl0, ht0⟩ : ∃ l, c.links.get? 0 = some l ∧ l.title = "Demon Altar" := by
    cases h : c.links.get? 0 with
    | none => rw [h] at h0; cases h0
    | some l => rw [h] at h0; exact ⟨l, rfl, by simpa using h0⟩
  obtain ⟨l3, hl3, ht3⟩ : ∃ l, c.links.get? 3 = some l ∧ l.title = "Crimson Altar" := by
    cases h : c.links.get? 3 with
    | none => rw [h] at h3; cases h3
    | some l => rw [h] at h3; exact ⟨l, rfl, by simpa using h3⟩
  have hpair : pairMatches c.links "Demon Altar" "Crimson Altar" = Except.ok true := by
    simp only [pairMatches, titleAt]
    rw [hl0, hl3]
    simp only [ht0, ht3]
    rfl
  have htwo : stationTwoImg acc c.links = Except.ok (acc ++ ["Altars"]) := by
    unfold stationTwoImg
    rw [hpair]
    rfl
  refine ⟨?_, rfl⟩
  simp [stationStep, h2, htwo]

/-- A crafting-station row as the wiki renders it: an image link and a text
    link per altar, so "Demon Altar" stands at index 0 and "Crimson Altar"
    at index 3. -/
def c7FourLinkCell : StationCell :=
  { imgCount := 2, text := "",
    links := [{ title := "Demon Altar", href := "/wiki/Demon_Altar" },
              { title := "Demon Altar", href := "/wiki/Demon_Altar" },
              { title := "Crimson Altar", href := "/wiki/Crimson_Altar" },
              { title := "Crimson Altar", href := "/wiki/Crimson_Altar" }] }

/-- Witness for C7 amended at the four-link concrete row. -/
theorem station_normalization_c7_witness :
    stationStep ["By_Hand"] (some c7FourLinkCell) = Except.ok (["By_Hand"] ++ ["Altars"]) ∧
    space_to_underscore "Work Bench" = "Work_Bench" :=
  station_normalization_c7 ["By_Hand"] c7FourLinkCell rfl rfl rfl

/-- C9: on a string whose whitespace characters are all plain spaces and
    which contains no underscore, underscore_to_space inverts
    space_to_underscore: every space goes to an underscore and comes back,
    every other character is untouched by both. -/
theorem space_underscore_roundtrip_c9 (s : String)
    (hws : ∀ c ∈ s.data, isPyWhitespace c = true → c = ' ')
    (hund : '_' ∉ s.data) :
    underscore_to_space (space_to_underscore s) = s := by
  unfold underscore_to_space space_to_underscore
  cases s with
  | mk l =>
    simp only [List.map_map]
    congr 1
    induction l with
    | nil => rfl
    | cons c cs ih =>
      have hc : (fun x => if x = '_' then ' ' else x)
          ((fun x => if isPyWhitespace x then '_' else x) c) = c := by
        by_cases hw : isPyWhitespace c = true
        · have hsp : c = ' ' := hws c (by simp) hw
          simp [hw, hsp]
        · have hcu : c ≠ '_' := by
            intro hh
            exact hund (hh ▸ by simp)
          simp [hw, hcu]
      have hrest := ih (fun x hx hw => hws x (by simp [hx]) hw)
          (fun hx => hund (by simp [hx]))
      rw [List.map_cons, hrest]
      exact congrArg (fun x => x :: cs) hc

/-- Witness for C9 at the concrete string "Work Bench". -/
theorem space_underscore_roundtrip_c9_witness :
    underscore_to_space (space_to_underscore "Work Bench") = "Work Bench" :=
  space_underscore_roundtrip_c9 "Work Bench" (by decide) (by decide)

/-- C10 counterexample: with the output item ("Wood Sword") absent from the
    store, add_recipe neither resolves it nor inserts it into the items
    collection — the truth test `if item:` on the result cursor raises
    CursorCountError before either branch, and the items collection is
    exactly as empty afterwards as before. -/
theorem add_recipe_never_inserts_c10_counterexample :
    add_recipe dbEmpty woodSwordRecipe = (dbEmpty, some PyErr.cursorCountError) ∧
    dbEmpty.items = [] ∧
    ((add_recipe dbEmpty woodSwordRecipe).1).items = [] :=
  ⟨rfl, rfl, rfl⟩

/-- C10 amended: add_recipe never writes a record to the recipes collection
    because it never reaches a write at all — truth-testing the AQL result
    cursor raises CursorCountError on every call (the query runs without
    count enabled and the Cursor defines no other truth protocol), so the
    method neither resolves the output item against an existing record nor
    inserts it into the items collection, and the whole database state,
    recipes and items collections included, is unchanged. -/
theorem add_recipe_raises_unchanged_c10 (s : DBState) (recipe : RecipeObj) :
    add_recipe s recipe = (s, some PyErr.cursorCountError) ∧
    ((add_recipe s recipe).1).recipes = s.recipes ∧
    ((add_recipe s recipe).1).items = s.items :=
  ⟨rfl, rfl, rfl⟩
